import Mathlib

/-!
Verification of `cmd/gosky/cmd.py`, a one-off polars script that reads a
newline-delimited JSON export of feed posts, filters out plain replies,
flattens the nested author / repost-actor fields, and prints per effective
author the number of records, sorted ascending by count.

The dataframe is embedded as a `List` of records; each polars expression of
the script is translated into a Lean function on those lists.  Struct columns
are `Option`-valued (a polars struct value can be null per row, and unnesting
a null struct yields null subfields, which `Option.bind` captures).
-/

namespace Gosky

/-- Nested object `post.author` of a record: only the `displayName` field is
ever projected by the script. -/
structure Author where
  displayName : Option String
deriving DecidableEq, Repr

/-- Nested object `reason.by` of a record: only the `displayName` field is
ever projected by the script. -/
structure ReasonBy where
  displayName : Option String
deriving DecidableEq, Repr

/-- Top-level `reason` object of a record, present exactly when the record is
a repost; the script projects its `by` field. -/
structure Reason where
  «by» : Option ReasonBy
deriving DecidableEq, Repr

/-- Top-level `post` object of a record; the script projects its `author`
field. -/
structure Post where
  author : Option Author
deriving DecidableEq, Repr

/-- One line of the NDJSON input.  `reply` and `reason` are the top-level
columns read by the filter on line 8 of the script (the `unnest("post")` on
line 9 would fail with a duplicate-column error if `post` also contained a
`reason` field, so `reason` is necessarily the top-level column).  Only the
nullness of `reply` is ever inspected. -/
structure Record where
  reply : Option Unit
  reason : Option Reason
  post : Option Post
deriving DecidableEq, Repr

/-- Predicate of `df.filter(pl.col("reply").is_null() | ~pl.col("reason").is_null())`
(line 8). -/
def filterPred (r : Record) : Bool :=
  r.reply.isNone || r.reason.isSome

/-- Row shape after `.unnest("post").select("author", "reason")`
(lines 9-10). -/
structure Row1 where
  author : Option Author
  reason : Option Reason
deriving DecidableEq, Repr

/-- Row shape after `.unnest("reason").select("author", "by")`
(lines 11-12). -/
structure Row2 where
  author : Option Author
  «by» : Option ReasonBy
deriving DecidableEq, Repr

/-- Row shape after `.unnest("author").select(pl.col("displayName").alias("author"), "by")`
(lines 13-14). -/
structure Row3 where
  author : Option String
  «by» : Option ReasonBy
deriving DecidableEq, Repr

/-- Row shape after `.unnest("by").select("author", pl.col("displayName").alias("reposter"))`
(lines 15-16): the two flat columns of `df1`. -/
structure Row4 where
  author : Option String
  reposter : Option String
deriving DecidableEq, Repr

/-- Lines 9-10: unnest the `post` struct (a null struct unnests to null
subfields, hence `Option.bind`) and keep `author` and `reason`. -/
def unnestPost (r : Record) : Row1 :=
  { author := r.post.bind Post.author, reason := r.reason }

/-- Lines 11-12: unnest the `reason` struct and keep `author` and `by`. -/
def unnestReason (r : Row1) : Row2 :=
  { author := r.author, «by» := r.reason.bind Reason.«by» }

/-- Lines 13-14: unnest the `author` struct and keep its `displayName`
(renamed `author`) and `by`. -/
def unnestAuthor (r : Row2) : Row3 :=
  { author := r.author.bind Author.displayName, «by» := r.«by» }

/-- Lines 15-16: unnest the `by` struct and keep `author` and its
`displayName` (renamed `reposter`). -/
def unnestBy (r : Row3) : Row4 :=
  { author := r.author, reposter := r.«by».bind ReasonBy.displayName }

/-- Per-record composition of the four unnest/select stages of lines 9-16. -/
def flattenRecord (r : Record) : Row4 :=
  unnestBy (unnestAuthor (unnestReason (unnestPost r)))

/-- The dataframe `df1` of lines 7-17: filter, then flatten each remaining
record to the two columns `author` and `reposter`. -/
def df1 (df : List Record) : List Row4 :=
  (df.filter filterPred).map flattenRecord

/-- Expression `pl.when(pl.col("reposter").is_null()).then(pl.col("author")).otherwise(pl.col("reposter"))`
of lines 21-23: the effective author of a flattened row. -/
def effectiveAuthor (r : Row4) : Option String :=
  if r.reposter.isNone then r.author else r.reposter

/-- Lines 25-26, `group_by("author").len()`: one row per distinct key (null is
a key like any other, as in polars) carrying the number of occurrences of that
key.  The group order produced by polars `group_by` is unspecified;
`List.dedup` fixes one order of the distinct keys. -/
def groupByLen (rows : List (Option String)) : List (Option String × Nat) :=
  rows.dedup.map fun k => (k, rows.count k)

/-- Comparison used by `.sort("len")` (line 27): order rows by their `len`
column. -/
def lenLE (a b : Option String × Nat) : Prop :=
  a.2 ≤ b.2

instance : DecidableRel lenLE := fun a b => inferInstanceAs (Decidable (a.2 ≤ b.2))

instance : IsTotal (Option String × Nat) lenLE :=
  ⟨fun a b => Nat.le_total a.2 b.2⟩

instance : IsTrans (Option String × Nat) lenLE :=
  ⟨fun _ _ _ => Nat.le_trans⟩

/-- The table printed on lines 19-28: effective author per row of `df1`,
grouped with counts, sorted ascending by count. -/
def output (df : List Record) : List (Option String × Nat) :=
  List.insertionSort lenLE (groupByLen ((df1 df).map effectiveAuthor))

/-- Value of the path `post.author.displayName` of a record, null as soon as
any step of the path is null. -/
def recordAuthor (r : Record) : Option String :=
  (r.post.bind Post.author).bind Author.displayName

/-- Value of the path `reason.by.displayName` of a record, null as soon as any
step of the path is null; in particular null whenever the record is not a
repost. -/
def recordReposter (r : Record) : Option String :=
  (r.reason.bind Reason.«by»).bind ReasonBy.displayName

/-- Repost by display name "B" of a post authored by display name "A". -/
def sampleRepost : Record :=
  { reply := none,
    reason := some { «by» := some { displayName := some "B" } },
    post := some { author := some { displayName := some "A" } } }

/-- Plain reply (non-null `reply`, null `reason`) to a post authored by "A". -/
def samplePlainReply : Record :=
  { reply := some (),
    reason := none,
    post := some { author := some { displayName := some "A" } } }

/-- Repost whose `reason.by.displayName` is null, of a post authored by "A". -/
def sampleNullByRepost : Record :=
  { reply := none,
    reason := some { «by» := some { displayName := none } },
    post := some { author := some { displayName := some "A" } } }

/-- Columns and struct fields present in the schema that
`pl.read_ndjson(file, infer_schema_length=None)` infers over the whole
dataset.  A flag is `true` when the corresponding column or struct field
occurs somewhere in the dataset, and hence in the inferred schema; a field
that is null in every row of some records but present in others is still in
the schema. -/
structure Schema where
  hasReply : Bool
  hasReason : Bool
  reasonHasBy : Bool
  byHasDisplayName : Bool
  hasPost : Bool
  postHasAuthor : Bool
  authorHasDisplayName : Bool
deriving DecidableEq, Repr

/-- Modelled from the spec: the file reading of `pl.read_ndjson` (line 5) is
library code outside this repository, so its outcome is modelled after the
spec's error conditions.  An input is a missing file, a file that is not
valid line-delimited JSON, or a successfully parsed dataset together with its
inferred schema. -/
inductive Input where
  | missingFile
  | malformedJson
  | parsed (s : Schema) (records : List Record)
deriving DecidableEq, Repr

/-- Modelled from the spec: evaluation of the whole script over an input,
with the fatal errors of the underlying library made explicit.  Reading a
missing or malformed file fails; each expression of lines 7-17 fails when a
column or struct field it references is absent from the inferred schema
(polars raises a column-not-found or struct-field-not-found error), in the
order the script evaluates them; when every referenced field exists the
pipeline computes `output` over the records and printing succeeds. -/
def run (i : Input) : Except String (List (Option String × Nat)) :=
  match i with
  | .missingFile => .error "file not found"
  | .malformedJson => .error "invalid line-delimited JSON"
  | .parsed s records =>
    if !s.hasReply then .error "filter: column reply not found"
    else if !s.hasReason then .error "filter: column reason not found"
    else if !s.hasPost then .error "unnest: column post not found"
    else if !s.postHasAuthor then .error "select: field author not found"
    else if !s.reasonHasBy then .error "select: field by not found"
    else if !s.authorHasDisplayName then .error "select: field displayName not found"
    else if !s.byHasDisplayName then .error "select: field displayName not found"
    else .ok (output records)

/-- Failure condition exactly as the claim states it: missing file, malformed
line-delimited JSON, or one of the five fields `post`, `author`, `reason`,
`by`, `displayName` absent from the inferred schema (the `reply` column is
not in the claim's list). -/
def claimedFailure (i : Input) : Prop :=
  match i with
  | .missingFile => True
  | .malformedJson => True
  | .parsed s _ =>
    s.hasPost = false ∨ s.postHasAuthor = false ∨ s.hasReason = false ∨
      s.reasonHasBy = false ∨ s.authorHasDisplayName = false ∨
      s.byHasDisplayName = false

/-- Failure condition with the `reply` column added: line 8 of the script
references `pl.col("reply")`, so a dataset in which no record has a `reply`
field also fails. -/
def actualFailure (i : Input) : Prop :=
  match i with
  | .missingFile => True
  | .malformedJson => True
  | .parsed s _ =>
    s.hasReply = false ∨ s.hasReason = false ∨ s.hasPost = false ∨
      s.postHasAuthor = false ∨ s.reasonHasBy = false ∨
      s.authorHasDisplayName = false ∨ s.byHasDisplayName = false

/-- Schema in which every expected field is present except the top-level
`reply` column. -/
def schemaNoReply : Schema :=
  { hasReply := false, hasReason := true, reasonHasBy := true,
    byHasDisplayName := true, hasPost := true, postHasAuthor := true,
    authorHasDisplayName := true }

/-- Schema inferred from a dataset in which every record is a plain reply:
the `reply`, `post`, `author` and `displayName` fields occur and a literal
`"reason": null` keeps the `reason` column in the schema, but no `reason`
object ever occurs in such a dataset, so neither `by` nor its `displayName`
can enter the full-dataset-inferred schema. -/
def schemaAllReplies : Schema :=
  { hasReply := true, hasReason := true, reasonHasBy := false,
    byHasDisplayName := false, hasPost := true, postHasAuthor := true,
    authorHasDisplayName := true }

/-- C3: a record contributes to the aggregation iff its top-level `reply`
field is null or its top-level `reason` field is non-null; a plain reply
(reply non-null, reason null) is excluded and every other record is
included. -/
theorem filterPred_iff (r : Record) :
    filterPred r = true ↔ (r.reply = none ∨ r.reason ≠ none) := by
  simp [filterPred, Option.isNone_iff_eq_none, Option.isSome_iff_ne_none]

/-- C4: for every included record the computed effective author equals the
record's reposter value (`reason.by.displayName`) when that value is
non-null, and otherwise equals the record's author value
(`post.author.displayName`). -/
theorem effectiveAuthor_of_flatten (r : Record) (h : filterPred r = true) :
    (recordReposter r ≠ none →
        effectiveAuthor (flattenRecord r) = recordReposter r) ∧
      (recordReposter r = none →
        effectiveAuthor (flattenRecord r) = recordAuthor r) := by
  have hrep : (flattenRecord r).reposter = recordReposter r := rfl
  have hauth : (flattenRecord r).author = recordAuthor r := rfl
  constructor
  · intro hr
    simp only [effectiveAuthor, hrep, hauth]
    cases hx : recordReposter r with
    | none => exact absurd hx hr
    | some v => simp [hx]
  · intro hr
    simp [effectiveAuthor, hrep, hauth, hr]

/-- Witness for `effectiveAuthor_of_flatten` at the single repost record. -/
theorem effectiveAuthor_of_flatten_witness :
    (recordReposter sampleRepost ≠ none →
        effectiveAuthor (flattenRecord sampleRepost) = recordReposter sampleRepost) ∧
      (recordReposter sampleRepost = none →
        effectiveAuthor (flattenRecord sampleRepost) = recordAuthor sampleRepost) :=
  effectiveAuthor_of_flatten sampleRepost (by decide)

/-- C5: for every included record the flattening/projection pipeline of
lines 7-17 yields exactly two flat columns, `author` equal to the record's
`post.author.displayName` and `reposter` equal to the record's
`reason.by.displayName`, the latter null whenever the record is not a
repost. -/
theorem flattenRecord_projects (r : Record) (h : filterPred r = true) :
    (flattenRecord r).author = recordAuthor r ∧
      (flattenRecord r).reposter = recordReposter r ∧
      (r.reason = none → (flattenRecord r).reposter = none) := by
  refine ⟨rfl, rfl, fun hn => ?_⟩
  simp [flattenRecord, unnestPost, unnestReason, unnestAuthor, unnestBy, hn]

/-- Witness for `flattenRecord_projects` at the single repost record. -/
theorem flattenRecord_projects_witness :
    (flattenRecord sampleRepost).author = recordAuthor sampleRepost ∧
      (flattenRecord sampleRepost).reposter = recordReposter sampleRepost ∧
      (sampleRepost.reason = none → (flattenRecord sampleRepost).reposter = none) :=
  flattenRecord_projects sampleRepost (by decide)

/-- C7: for the single-record dataset consisting of a repost by display name
"B" of a post authored by display name "A", the printed table is exactly one
row crediting "B" with count 1, and no row mentions "A". -/
theorem output_single_repost : output [sampleRepost] = [(some "B", 1)] := by
  decide

/-- C1: every row of the printed table has a count equal to the number of
records of the dataset that pass the filter and whose computed effective
author equals that row's author value. -/
theorem output_count_eq (df : List Record) (row : Option String × Nat)
    (h : row ∈ output df) :
    row.2 = (df.filter fun r =>
      filterPred r && (effectiveAuthor (flattenRecord r) == row.1)).length := by
  rw [output, List.mem_insertionSort, groupByLen] at h
  obtain ⟨k, hk, hrow⟩ := List.mem_map.mp h
  subst hrow
  show ((df1 df).map effectiveAuthor).count k = _
  rw [df1, List.map_map, List.count_eq_countP, List.countP_map, List.countP_filter,
    ← List.countP_eq_length_filter]
  simp only [Function.comp, Bool.and_comm]

/-- Witness for `output_count_eq` at the one-repost dataset and its only
output row. -/
theorem output_count_eq_witness :
    ((some "B", 1) : Option String × Nat).2 =
      (([sampleRepost]).filter fun r =>
        filterPred r &&
          (effectiveAuthor (flattenRecord r) ==
            ((some "B", 1) : Option String × Nat).1)).length :=
  output_count_eq [sampleRepost] ((some "B", 1)) (by decide)

/-- Counting occurrences of an element does not depend on which lawful
boolean-equality instance is used. -/
lemma count_beq_bridge {α : Type} [BEq α] [LawfulBEq α] [DecidableEq α]
    (k : α) (l : List α) :
    List.count k l = @List.count α (@instBEqOfDecidableEq α _) k l := by
  rw [List.count_eq_countP, @List.count_eq_countP α (@instBEqOfDecidableEq α _) k l]
  exact List.countP_congr fun x hx => by
    simp [beq_iff_eq, instBEqOfDecidableEq]

/-- C2: the counts of the printed table sum to the number of records that
satisfy the filter predicate, so every included record is counted in exactly
one output row. -/
theorem output_sum_counts (df : List Record) :
    ((output df).map Prod.snd).sum = (df.filter filterPred).length := by
  have hp : List.Perm ((output df).map Prod.snd)
      ((groupByLen ((df1 df).map effectiveAuthor)).map Prod.snd) :=
    (List.perm_insertionSort lenLE _).map Prod.snd
  rw [hp.sum_eq, groupByLen, List.map_map]
  rw [show (Prod.snd ∘ fun k => (k, ((df1 df).map effectiveAuthor).count k))
      = fun k => ((df1 df).map effectiveAuthor).count k from rfl]
  have hb : (((df1 df).map effectiveAuthor).dedup.map
        fun k => ((df1 df).map effectiveAuthor).count k).sum
      = ((df1 df).map effectiveAuthor).length := by
    rw [← List.sum_map_count_dedup_eq_length ((df1 df).map effectiveAuthor)]
    exact congrArg List.sum (List.map_congr_left fun k hk => count_beq_bridge k _)
  rw [hb, List.length_map, df1, List.length_map]

/-- C6: the rows of the printed table are ordered by non-decreasing count. -/
theorem output_sorted (df : List Record) :
    (output df).Pairwise fun a b => a.2 ≤ b.2 :=
  List.sorted_insertionSort lenLE _

/-- C8 counterexample: a dataset whose single record is a plain reply cannot
put the `reason.by` fields in the full-dataset-inferred schema, so the script
fails with a schema error instead of succeeding with an empty table as the
claim states. -/
theorem run_all_plain_replies_fails :
    samplePlainReply.reply ≠ none ∧ samplePlainReply.reason = none ∧
      (run (Input.parsed schemaAllReplies [samplePlainReply])).isOk = false :=
  ⟨by decide, rfl, rfl⟩

/-- C8 amended: on a dataset in which every record is a plain reply (non-null
`reply`, null `reason`) the program does not succeed: no record carries a
`reason` object, so the `reason.by` field cannot be in the inferred schema
and the script terminates with a schema error; at the dataframe level the
filter excludes every such record, so the aggregation itself has zero
rows. -/
theorem run_all_plain_replies_never_succeeds (s : Schema) (records : List Record)
    (hsound : s.reasonHasBy = true → ∃ r ∈ records, r.reason ≠ none)
    (hall : ∀ r ∈ records, r.reply ≠ none ∧ r.reason = none) :
    (run (Input.parsed s records)).isOk = false ∧ output records = [] := by
  have hby : s.reasonHasBy = false := by
    cases hb : s.reasonHasBy
    · rfl
    · obtain ⟨r, hr, hne⟩ := hsound hb
      exact absurd (hall r hr).2 hne
  constructor
  · rcases s with ⟨a, b, c, d, e, f, g⟩
    have hc : c = false := hby
    subst hc
    cases a <;> cases b <;> cases e <;> cases f <;>
      simp [run, Except.isOk, Except.toBool]
  · have hf : records.filter filterPred = [] := by
      rw [List.filter_eq_nil_iff]
      intro r hr
      obtain ⟨h1, h2⟩ := hall r hr
      simp [filterPred, Option.isNone_iff_eq_none, h1, h2]
    simp [output, df1, hf, groupByLen, List.insertionSort]

/-- Witness for `run_all_plain_replies_never_succeeds` at the one-reply
dataset together with its inferred schema. -/
theorem run_all_plain_replies_witness :
    (run (Input.parsed schemaAllReplies [samplePlainReply])).isOk = false ∧
      output [samplePlainReply] = [] :=
  run_all_plain_replies_never_succeeds schemaAllReplies [samplePlainReply]
    (by decide) (by decide)

/-- C10: an included repost whose `reason.by.displayName` value is null is
not dropped and is not credited to the repost actor: it is attributed to the
record's `post.author.displayName`, because the fallback is decided by the
per-row nullness of the reposter value, not by whether the record is a
repost. -/
theorem repost_with_null_actor_credited_to_author (r : Record)
    (h1 : r.reason ≠ none) (h2 : recordReposter r = none) :
    filterPred r = true ∧ effectiveAuthor (flattenRecord r) = recordAuthor r := by
  refine ⟨by simp [filterPred, Option.isSome_iff_ne_none, h1], ?_⟩
  have hrep : (flattenRecord r).reposter = recordReposter r := rfl
  have hauth : (flattenRecord r).author = recordAuthor r := rfl
  simp [effectiveAuthor, hrep, hauth, h2]

/-- Witness for `repost_with_null_actor_credited_to_author` at a repost whose
actor display name is null. -/
theorem repost_with_null_actor_witness :
    filterPred sampleNullByRepost = true ∧
      effectiveAuthor (flattenRecord sampleNullByRepost) = recordAuthor sampleNullByRepost :=
  repost_with_null_actor_credited_to_author sampleNullByRepost (by decide) (by decide)

/-- C9 counterexample: a parsed dataset whose inferred schema lacks the
top-level `reply` column but has every field the claim lists makes the script
fail (at the filter of line 8), while the claim's failure condition does not
hold there, so the claim's "fails exactly when" is false. -/
theorem run_fails_without_reply :
    (run (Input.parsed schemaNoReply [])).isOk = false ∧
      ¬ claimedFailure (Input.parsed schemaNoReply []) := by
  exact ⟨rfl, by simp [claimedFailure, schemaNoReply]⟩

/-- C9 amended: the script fails exactly when the file is missing, the file
is not valid line-delimited JSON, or one of the fields `reply`, `reason`,
`post`, `author`, `by`, `displayName` is absent from the inferred schema;
per-row nulls in schema-present fields are never errors. -/
theorem run_error_iff (i : Input) :
    (run i).isOk = false ↔ actualFailure i := by
  cases i with
  | missingFile => simp [run, actualFailure, Except.isOk, Except.toBool]
  | malformedJson => simp [run, actualFailure, Except.isOk, Except.toBool]
  | parsed s records =>
    rcases s with ⟨a, b, c, d, e, f, g⟩
    cases a <;> cases b <;> cases c <;> cases d <;> cases e <;> cases f <;> cases g <;>
      simp [run, actualFailure, Except.isOk, Except.toBool]

end Gosky
